import Mathlib

/-!
Shallow embedding of `mendeleev/vis/plotly.py` and proofs about the claims of
its specification.

The module under verification builds a periodic-table chart from a pandas
DataFrame (`periodic_table_plotly` with the helpers `create_tile` and
`create_annotation`) and an electronegativity scatter chart (`plot_scale`).

Modelling decisions (all translated from the source, not from the spec):

* Python float values that occur in the table and in the layout are exact
  decimal numbers.  They are modelled by `Decimal`: an integer mantissa `m`
  and an exponent `e` denoting the value `m / 10 ^ e`, kept in the canonical
  form where either `e = 0` or `m` is not divisible by 10.  All constants of
  the source (0.45, 0.3, 0.35, 0.5, 18.5, 32.5, ...) are exact decimals, and
  `Series.round` is modelled as exact round-half-to-even (numpy rounding).
* A pandas cell value (`Val`) is a number, the float NaN that pandas uses for
  missing data, or a non numeric (string) object.
* A DataFrame is a list of named columns, each carrying a dtype tag; the tag
  is what `pandas.api.types.is_float_dtype` inspects.
* Row access (`row["x"]`, `row[attr]`) is fallible: a missing key models a
  Python KeyError, arithmetic on a non numeric value models a TypeError.
  Both surface as the error `PtErr.rowError`; the explicit `ValueError`
  raised by the coordinate-column validation is `PtErr.valueError`.
* The mutation of the caller's table (the source assigns new columns to
  `elements`) is modelled by returning the final table state next to the
  `Except` result: `periodic_table_plotly` returns the pair of the chart
  result and the table as it is left when the call finishes or raises.
* `colormap_column` lives in `mendeleev/vis/utils.py`, which the spec scopes
  out as the external color-mapping collaborator; it is a parameter `cm` of
  the embedding, assumed nothing about.
-/

/-- Exact decimal number `mant / 10 ^ exp`, the model of a Python float as it
is used by this module.  Values are kept normalized (`exp = 0` or
`mant % 10 ≠ 0`), so that syntactic equality is value equality. -/
structure Decimal where
  mant : ℤ
  exp : ℕ
  deriving DecidableEq

/-- Strip factors of ten shared by the mantissa and the denominator. -/
def Decimal.normAux : ℤ → ℕ → Decimal
  | m, 0 => ⟨m, 0⟩
  | m, e + 1 => if m % 10 = 0 then Decimal.normAux (m / 10) e else ⟨m, e + 1⟩

def Decimal.norm (d : Decimal) : Decimal :=
  Decimal.normAux d.mant d.exp

def Decimal.ofInt (n : ℤ) : Decimal := ⟨n, 0⟩

def Decimal.add (a b : Decimal) : Decimal :=
  Decimal.norm ⟨a.mant * (10 : ℤ) ^ b.exp + b.mant * (10 : ℤ) ^ a.exp, a.exp + b.exp⟩

def Decimal.sub (a b : Decimal) : Decimal :=
  Decimal.norm ⟨a.mant * (10 : ℤ) ^ b.exp - b.mant * (10 : ℤ) ^ a.exp, a.exp + b.exp⟩

/-- Strict value order on decimals, by cross multiplication. -/
def Decimal.blt (a b : Decimal) : Bool :=
  a.mant * (10 : ℤ) ^ b.exp < b.mant * (10 : ℤ) ^ a.exp

/-- Multiplication by `10 ^ d` for an integer `d`; exact in both directions. -/
def Decimal.mulPow10 (q : Decimal) (d : ℤ) : Decimal :=
  match d with
  | .ofNat n => Decimal.norm ⟨q.mant * (10 : ℤ) ^ n, q.exp⟩
  | .negSucc n => Decimal.norm ⟨q.mant, q.exp + (n + 1)⟩

/-- Floor of the denoted value (the denominator is positive). -/
def Decimal.floorInt (q : Decimal) : ℤ :=
  q.mant.ediv ((10 : ℤ) ^ q.exp)

/-- Round half to even to an integer, the rounding mode of numpy and hence of
`pandas.Series.round`. -/
def roundHalfEven (q : Decimal) : ℤ :=
  let f := q.floorInt
  let r := q.sub (Decimal.ofInt f)
  if r.blt ⟨5, 1⟩ then f
  else if Decimal.blt ⟨5, 1⟩ r then f + 1
  else if f % 2 = 0 then f else f + 1

/-- `round(q, decimals)` of numpy / pandas on the decimal model. -/
def Decimal.roundTo (decimals : ℤ) (q : Decimal) : Decimal :=
  (Decimal.ofInt (roundHalfEven (q.mulPow10 decimals))).mulPow10 (-decimals)

/-- A pandas cell value: a float, the float NaN used for missing data, or a
non numeric (object) value. -/
inductive Val where
  | num (q : Decimal)
  | nan
  | str (s : String)
  deriving DecidableEq

/-- `v + offset` on cell values: NaN propagates (float arithmetic), a non
numeric value raises a TypeError, modelled as `none`. -/
def Val.addD : Val → Decimal → Option Val
  | .num a, b => some (.num (a.add b))
  | .nan, _ => some .nan
  | .str _, _ => none

/-- `v - offset` on cell values, with the same failure behaviour. -/
def Val.subD : Val → Decimal → Option Val
  | .num a, b => some (.num (a.sub b))
  | .nan, _ => some .nan
  | .str _, _ => none

/-- The column dtypes the module distinguishes: `is_float_dtype` is true
exactly for `float64`. -/
inductive Dtype where
  | float64
  | int64
  | object
  deriving DecidableEq

structure Column where
  dtype : Dtype
  values : List Val
  deriving DecidableEq

/-- A pandas DataFrame: named columns in order. -/
structure DataFrame where
  columns : List (String × Column)
  deriving DecidableEq

/-- A row of the table as handed to the per-row builders: name/value pairs. -/
abbrev Row := List (String × Val)

def DataFrame.getCol (df : DataFrame) (name : String) : Option Column :=
  (df.columns.find? (fun p => p.1 == name)).map (fun p => p.2)

/-- `name in df.columns` of pandas. -/
def DataFrame.hasCol (df : DataFrame) (name : String) : Bool :=
  (df.getCol name).isSome

/-- Number of rows (length of the index). -/
def DataFrame.nrows (df : DataFrame) : ℕ :=
  match df.columns with
  | [] => 0
  | p :: _ => p.2.values.length

/-- The `i`-th row; with equal column lengths the default is never taken. -/
def DataFrame.row (df : DataFrame) (i : ℕ) : Row :=
  df.columns.map (fun p => (p.1, p.2.values.getD i Val.nan))

/-- `row[key]` on a row: `none` models the KeyError on a missing key. -/
def rowGet (row : Row) (key : String) : Option Val :=
  (row.find? (fun p => p.1 == key)).map (fun p => p.2)

/-- `df[name] = column` / `df.loc[:, name] = column`: replace the column in
place if the name exists, otherwise append it at the end. -/
def setCol (df : DataFrame) (name : String) (c : Column) : DataFrame :=
  if df.hasCol name then
    ⟨df.columns.map (fun p => if p.1 = name then (name, c) else p)⟩
  else
    ⟨df.columns ++ [(name, c)]⟩

/-- All columns have the row count of the index. -/
def DataFrame.wf (df : DataFrame) : Bool :=
  df.columns.all (fun p => p.2.values.length == df.nrows)

/-- Errors of the assembler: the explicit ValueError of the coordinate-column
validation, and the raw lookup failures (KeyError / TypeError) that the spec
says are propagated untranslated. -/
inductive PtErr where
  | valueError (msg : String)
  | rowError
  deriving DecidableEq

/-- Apply a fallible function to every list element, in order; the first
failure fails the whole traversal. -/
def seqOption {α β : Type} (f : α → Option β) : List α → Option (List β)
  | [] => some []
  | a :: as =>
    match f a, seqOption f as with
    | some b, some bs => some (b :: bs)
    | _, _ => none

/-- Row-wise application in row order (`DataFrame.apply(axis=1)` and
`iterrows`): the first failing row aborts the whole call. -/
def mapRowsE {α : Type} (df : DataFrame) (f : Row → Option α) : Except PtErr (List α) :=
  match seqOption (fun i => f (df.row i)) (List.range df.nrows) with
  | none => .error .rowError
  | some l => .ok l

/-- The fields `create_tile` sets on the plotly `Shape`. -/
structure Shape where
  type : String
  x0 : Val
  y0 : Val
  x1 : Val
  y1 : Val
  lineColor : Val
  fillcolor : Val
  opacity : Decimal
  deriving DecidableEq

/-- The fields `create_annotation` sets on the plotly layout text descriptor. -/
structure Annot where
  x : Val
  y : Val
  xref : String
  yref : String
  text : Val
  showarrow : Bool
  fontFamily : String
  fontSize : ℤ
  fontColor : String
  align : String
  opacity : Decimal
  deriving DecidableEq

/-- Embedding of `create_tile(element, color, x_offset=0.45, y_offset=0.45)`.
The source defaults of both offsets are 0.45; the embedding passes them
explicitly. -/
def create_tile (element : Row) (color : String) (x_offset : Decimal)
    (y_offset : Decimal) : Option Shape := do
  let ex ← rowGet element "x"
  let ey ← rowGet element "y"
  let x0 ← ex.subD x_offset
  let y0 ← ey.subD y_offset
  let x1 ← ex.addD x_offset
  let y1 ← ey.addD y_offset
  let c ← rowGet element color
  some { type := "rect", x0 := x0, y0 := y0, x1 := x1, y1 := y1,
         lineColor := c, fillcolor := c, opacity := ⟨8, 1⟩ }

/-- Embedding of `create_annotation(row, attr, size=10, x_offset=0.0,
y_offset=0.0)` (the name is shortened, a name ending in that word being
unavailable here).  The source defaults are size 10 and offsets 0; the
embedding passes them explicitly. -/
def create_annot (row : Row) (attr : String) (size : ℤ) (x_offset : Decimal)
    (y_offset : Decimal) : Option Annot := do
  let rx ← rowGet row "x"
  let x ← rx.addD x_offset
  let ry ← rowGet row "y"
  let y ← ry.addD y_offset
  let t ← rowGet row attr
  some { x := x, y := y, xref := "x", yref := "y", text := t, showarrow := false,
         fontFamily := "Roboto", fontSize := size, fontColor := "#333333",
         align := "center", opacity := ⟨9, 1⟩ }

/-- One plotly axis as configured by the final `update_layout` call. -/
structure Axis where
  range : List Decimal
  showgrid : Bool
  fixedrange : Bool
  side : Option String
  tickvals : Option (List ℕ)
  title : Option String
  deriving DecidableEq

/-- The chart state this module produces: appended shape and text overlays
plus the layout set by `update_layout`. -/
structure Figure where
  shapes : List Shape
  annotations : List Annot
  template : String
  height : ℤ
  width : ℤ
  title : String
  xaxis : Axis
  yaxis : Axis
  deriving DecidableEq

/-- The external color-mapping collaborator `colormap_column` from
`mendeleev/vis/utils.py` (out of scope per the spec): from the table, the
attribute column name, the colormap name and the missing-value color it
returns the per-row colors. -/
abbrev Cmap := DataFrame → String → String → String → List Val

/-- Lines 89-92 of the source: when coloring by attribute, store the colors
from the collaborator in the column `attribute_color` and switch the active
color column to it. -/
def colorPrep (cm : Cmap) (elements : DataFrame) (attrName : String)
    (cmap : String) (colorby : String) (missing : String) : DataFrame × String :=
  if colorby = "attribute" then
    (setCol elements "attribute_color" ⟨.object, cm elements attrName cmap missing⟩,
     "attribute_color")
  else
    (elements, colorby)

/-- `Series.round(decimals)` cell-wise: NaN stays NaN. -/
def Val.roundVal (decimals : ℤ) : Val → Val
  | .num q => .num (q.roundTo decimals)
  | v => v

/-- The derived display column (lines 117-121): a float dtype column is
rounded value-wise, any other column is copied unchanged. -/
def displayColumn (c : Column) (decimals : ℤ) : Column :=
  if c.dtype = .float64 then ⟨.float64, c.values.map (Val.roundVal decimals)⟩
  else ⟨c.dtype, c.values⟩

/-- Lines 117-121: read `elements[attribute]` (KeyError if absent), then
assign the derived column `display_attribute`. -/
def addDisplayColumn (df : DataFrame) (attrName : String) (decimals : ℤ) :
    Except PtErr DataFrame :=
  match df.getCol attrName with
  | none => .error .rowError
  | some c => .ok (setCol df "display_attribute" (displayColumn c decimals))

/-- The message of the ValueError raised for missing coordinate columns
(lines 81-85; the quotation marks around column names in the source text are
omitted here). -/
def xyErrorMsg : String :=
  "Coordinate columns named x and y are required in elements DataFrame. Consider using mendeleev.vis.utils.create_vis_dataframe and try again."

/-- The final `update_layout` (lines 135-163) applied to the accumulated
shapes and text overlays. -/
def mkFigure (tiles : List Shape) (anns : List Annot) (height width : ℤ)
    (title : String) (wide_layout : Bool) : Figure :=
  { shapes := tiles
    annotations := anns
    template := "plotly_white"
    height := height
    width := width
    title := title
    xaxis := { range := if wide_layout then [⟨5, 1⟩, ⟨325, 1⟩] else [⟨5, 1⟩, ⟨185, 1⟩]
               showgrid := false
               fixedrange := true
               side := some "top"
               tickvals := if wide_layout then none else some (List.range' 1 18)
               title := none }
    yaxis := { range := if wide_layout then [⟨75, 1⟩, ⟨5, 1⟩] else [⟨10, 0⟩, ⟨5, 1⟩]
               showgrid := false
               fixedrange := true
               side := none
               tickvals := some (List.range' 1 7)
               title := some "Period" } }

/-- Embedding of `periodic_table_plotly`.  `attrName` is the parameter called
`attribute` in the source (a reserved word here).  The first component is the
chart construction result, the second the state of the caller's table when
the call returns or raises (the source mutates `elements` in place). -/
def periodic_table_plotly (cm : Cmap) (elements : DataFrame) (attrName : String)
    (cmap : String) (colorby : String) (decimals : ℤ) (height : ℤ)
    (missing : String) (title : String) (wide_layout : Bool) (width : ℤ) :
    Except PtErr Figure × DataFrame :=
  if ["x", "y"].any (fun col => !(elements.hasCol col)) then
    (.error (.valueError xyErrorMsg), elements)
  else
    match mapRowsE (colorPrep cm elements attrName cmap colorby missing).1
        (fun row => create_tile row (colorPrep cm elements attrName cmap colorby missing).2
          ⟨45, 2⟩ ⟨45, 2⟩) with
    | .error e => (.error e, (colorPrep cm elements attrName cmap colorby missing).1)
    | .ok tiles =>
      match mapRowsE (colorPrep cm elements attrName cmap colorby missing).1
          (fun row => create_annot row "symbol" 16 ⟨0, 0⟩ ⟨0, 0⟩) with
      | .error e => (.error e, (colorPrep cm elements attrName cmap colorby missing).1)
      | .ok symbolAnns =>
        match mapRowsE (colorPrep cm elements attrName cmap colorby missing).1
            (fun row => create_annot row "atomic_number" 10 ⟨0, 0⟩ ⟨-3, 1⟩) with
        | .error e => (.error e, (colorPrep cm elements attrName cmap colorby missing).1)
        | .ok numberAnns =>
          match mapRowsE (colorPrep cm elements attrName cmap colorby missing).1
              (fun row => create_annot row "name" 7 ⟨0, 0⟩ ⟨2, 1⟩) with
          | .error e => (.error e, (colorPrep cm elements attrName cmap colorby missing).1)
          | .ok nameAnns =>
            match addDisplayColumn (colorPrep cm elements attrName cmap colorby missing).1
                attrName decimals with
            | .error e => (.error e, (colorPrep cm elements attrName cmap colorby missing).1)
            | .ok dfd =>
              match mapRowsE dfd
                  (fun row => create_annot row "display_attribute" 7 ⟨0, 0⟩ ⟨35, 2⟩) with
              | .error e => (.error e, dfd)
              | .ok attrAnns =>
                (.ok (mkFigure tiles (symbolAnns ++ numberAnns ++ nameAnns ++ attrAnns)
                   height width title wide_layout), dfd)

/-- Python `str.capitalize`: first character upper cased, the rest lower
cased. -/
def pyCapitalize (s : String) : String :=
  match s.toList with
  | [] => ""
  | c :: cs => String.mk (c.toUpper :: cs.map Char.toLower)

/-- Python `str.strip(chars)`: remove from both ends every character that is
a member of `chars` (a character set, not a substring). -/
def pyStrip (s : String) (chars : String) : List Char :=
  let cs := chars.toList
  ((s.toList.dropWhile (fun c => cs.contains c)).reverse.dropWhile
    (fun c => cs.contains c)).reverse

/-- Python `str.split(sep)` for a one-character separator. -/
def splitOnChar (sep : Char) : List Char → List (List Char)
  | [] => [[]]
  | c :: cs =>
    match splitOnChar sep cs with
    | [] => [[c]]
    | h :: t => if c = sep then [] :: h :: t else (c :: h) :: t

/-- Line 175 of the source:
`"-".join(map(str.capitalize, scale.strip("en_").split("_")))`. -/
def scaleDisplayName (scale : String) : String :=
  String.intercalate "-"
    ((splitOnChar '_' (pyStrip scale "en_")).map (fun w => pyCapitalize (String.mk w)))

/-- The reading of the claim/spec, for comparison: remove the literal prefix
`en_` when present (instead of stripping a character set from both ends) and
capitalize the underscore-separated words. -/
def specScaleDisplayName (scale : String) : String :=
  let base : List Char :=
    match scale.toList with
    | 'e' :: 'n' :: '_' :: rest => rest
    | l => l
  String.intercalate "-"
    ((splitOnChar '_' base).map (fun w => pyCapitalize (String.mk w)))

/-- The chart settings `plot_scale` makes (lines 168-193): the scatter call,
the trace cosmetics and the axis titles.  The table of points itself belongs
to the external chart engine and carries no information this module
computes, beyond the column bindings recorded here. -/
structure ScaleFigure where
  yColumn : String
  template : String
  height : ℤ
  width : ℤ
  textColumn : String
  title : String
  textposition : String
  textfontSize : ℤ
  markerSize : ℤ
  markerColor : String
  fontSize : ℤ
  xTitle : String
  xZeroline : Bool
  xRange : List Decimal
  yTitle : String
  deriving DecidableEq

/-- Embedding of `plot_scale(data, scale)`. -/
def plot_scale (data : DataFrame) (scale : String) : ScaleFigure :=
  { yColumn := scale
    template := "plotly_white"
    height := 600
    width := 1400
    textColumn := "symbol"
    title := scaleDisplayName scale ++ "\x27s Electronegativity"
    textposition := "top center"
    textfontSize := 10
    markerSize := 8
    markerColor := "#0081a7"
    fontSize := 12
    xTitle := "Atomic Number"
    xZeroline := false
    xRange := [⟨0, 0⟩, ⟨119, 0⟩]
    yTitle := scaleDisplayName scale }

/-- First component of the assembler result, as an `Option`al chart. -/
def okFig (r : Except PtErr Figure × DataFrame) : Option Figure :=
  match r.1 with
  | .ok f => some f
  | .error _ => none

/-- Second component of the assembler result when the chart was built. -/
def okDf (r : Except PtErr Figure × DataFrame) : Option DataFrame :=
  match r.1 with
  | .ok _ => some r.2
  | .error _ => none

/-- True when the assembler built a chart. -/
def isOkRun (r : Except PtErr Figure × DataFrame) : Bool :=
  match r.1 with
  | .ok _ => true
  | .error _ => false

def cmNone : Cmap := fun _ _ _ _ => []

def cmGray : Cmap := fun df _ _ _ => (List.range df.nrows).map (fun _ => Val.str "#aabbcc")

def sampleDF : DataFrame :=
  ⟨[("x", ⟨.float64, [Val.num ⟨1, 0⟩]⟩),
    ("y", ⟨.float64, [Val.num ⟨1, 0⟩]⟩),
    ("symbol", ⟨.object, [Val.str "H"]⟩),
    ("atomic_number", ⟨.int64, [Val.num ⟨1, 0⟩]⟩),
    ("name", ⟨.object, [Val.str "Hydrogen"]⟩),
    ("atomic_weight", ⟨.float64, [Val.num ⟨71234, 4⟩]⟩),
    ("color", ⟨.object, [Val.str "#ffffff"]⟩)]⟩

def nanDF : DataFrame :=
  ⟨[("x", ⟨.float64, [Val.nan]⟩),
    ("y", ⟨.float64, [Val.num ⟨1, 0⟩]⟩),
    ("symbol", ⟨.object, [Val.str "H"]⟩),
    ("atomic_number", ⟨.int64, [Val.num ⟨1, 0⟩]⟩),
    ("name", ⟨.object, [Val.str "Hydrogen"]⟩),
    ("atomic_weight", ⟨.float64, [Val.num ⟨71234, 4⟩]⟩),
    ("color", ⟨.object, [Val.str "#ffffff"]⟩)]⟩

def mixDF : DataFrame :=
  ⟨[("x", ⟨.float64, [Val.num ⟨1, 0⟩, Val.num ⟨2, 0⟩]⟩),
    ("y", ⟨.float64, [Val.num ⟨1, 0⟩, Val.num ⟨1, 0⟩]⟩),
    ("symbol", ⟨.object, [Val.str "H", Val.str "He"]⟩),
    ("atomic_number", ⟨.int64, [Val.num ⟨1, 0⟩, Val.num ⟨2, 0⟩]⟩),
    ("name", ⟨.object, [Val.str "Hydrogen", Val.str "Helium"]⟩),
    ("block", ⟨.object, [Val.num ⟨71234, 4⟩, Val.str "s-block"]⟩),
    ("color", ⟨.object, [Val.str "#ffffff", Val.str "#000000"]⟩)]⟩

def ovrDF : DataFrame :=
  ⟨[("x", ⟨.float64, [Val.num ⟨1, 0⟩]⟩),
    ("y", ⟨.float64, [Val.num ⟨1, 0⟩]⟩),
    ("symbol", ⟨.object, [Val.str "H"]⟩),
    ("atomic_number", ⟨.int64, [Val.num ⟨1, 0⟩]⟩),
    ("name", ⟨.object, [Val.str "Hydrogen"]⟩),
    ("atomic_weight", ⟨.float64, [Val.num ⟨71234, 4⟩]⟩),
    ("display_attribute", ⟨.object, [Val.str "junk"]⟩),
    ("attribute_color", ⟨.object, [Val.str "junk"]⟩)]⟩

def noXDF : DataFrame := ⟨[("y", ⟨.float64, [Val.num ⟨1, 0⟩]⟩)]⟩

def sampleRow : Row :=
  [("x", Val.num ⟨1, 0⟩), ("y", Val.num ⟨1, 0⟩), ("color", Val.str "#1a2b3c")]

theorem seqOption_length {α β : Type} (f : α → Option β) :
    ∀ (l : List α) (l2 : List β), seqOption f l = some l2 → l2.length = l.length := by
  intro l
  induction l with
  | nil => intro l2 h; simp [seqOption] at h; simp [← h]
  | cons a as ih =>
    intro l2 h
    unfold seqOption at h
    cases hfa : f a with
    | none => rw [hfa] at h; simp at h
    | some b =>
      rw [hfa] at h
      cases hrest : seqOption f as with
      | none => rw [hrest] at h; simp at h
      | some bs =>
        rw [hrest] at h
        simp at h
        rw [← h]
        simp [ih bs hrest]

theorem mapRowsE_ok_length {α : Type} {df : DataFrame} {f : Row → Option α}
    {l : List α} (h : mapRowsE df f = .ok l) : l.length = df.nrows := by
  unfold mapRowsE at h
  cases hm : seqOption (fun i => f (df.row i)) (List.range df.nrows) with
  | none => rw [hm] at h; simp at h
  | some l2 =>
    rw [hm] at h
    simp at h
    have h2 := seqOption_length _ _ _ hm
    rw [h] at h2
    simpa using h2

theorem mapRowsE_error_eq {α : Type} {df : DataFrame} {f : Row → Option α}
    {e : PtErr} (h : mapRowsE df f = .error e) : e = .rowError := by
  unfold mapRowsE at h
  cases hm : seqOption (fun i => f (df.row i)) (List.range df.nrows) with
  | none => rw [hm] at h; simp at h; exact h.symm
  | some l2 => rw [hm] at h; simp at h

theorem addDisplayColumn_error_eq {df : DataFrame} {attrName : String} {decimals : ℤ}
    {e : PtErr} (h : addDisplayColumn df attrName decimals = .error e) : e = .rowError := by
  unfold addDisplayColumn at h
  cases hg : df.getCol attrName with
  | none => rw [hg] at h; simp at h; exact h.symm
  | some c => rw [hg] at h; simp at h

theorem find_repl_ne {n m : String} {c : Column} (hnm : m ≠ n) :
    ∀ l : List (String × Column),
      (l.map (fun p => if p.1 = n then (n, c) else p)).find? (fun p => p.1 == m)
        = l.find? (fun p => p.1 == m) := by
  intro l
  induction l with
  | nil => rfl
  | cons p l ih =>
    by_cases hp : p.1 = n
    · have hb : (p.1 == m) = false := by
        simp only [beq_eq_false_iff_ne, ne_eq, hp]
        exact fun hc => hnm hc.symm
      have hb2 : ((n : String) == m) = false := by
        simp only [beq_eq_false_iff_ne, ne_eq]
        exact fun hc => hnm hc.symm
      simp only [List.map_cons, if_pos hp, List.find?_cons, hb, hb2]
      exact ih
    · simp only [List.map_cons, if_neg hp, List.find?_cons]
      cases hpm : (p.1 == m) with
      | true => rfl
      | false => exact ih

theorem find_append_single_ne {n m : String} {c : Column} (hnm : m ≠ n) :
    ∀ l : List (String × Column),
      (l ++ [(n, c)]).find? (fun p => p.1 == m) = l.find? (fun p => p.1 == m) := by
  intro l
  induction l with
  | nil =>
    have hb2 : ((n : String) == m) = false := by
      simp only [beq_eq_false_iff_ne, ne_eq]
      exact fun hc => hnm hc.symm
    simp [List.find?_cons, hb2]
  | cons p l ih =>
    simp only [List.cons_append, List.find?_cons]
    cases hpm : (p.1 == m) with
    | true => rfl
    | false => exact ih

theorem find_repl_self {n : String} {c : Column} :
    ∀ l : List (String × Column),
      l.find? (fun p => p.1 == n) ≠ none →
      (l.map (fun p => if p.1 = n then (n, c) else p)).find? (fun p => p.1 == n)
        = some (n, c) := by
  intro l
  induction l with
  | nil => intro h; simp at h
  | cons p l ih =>
    intro h
    by_cases hp : p.1 = n
    · simp [List.map_cons, if_pos hp, List.find?_cons]
    · have hb : (p.1 == n) = false := by simp [hp]
      simp only [List.find?_cons, hb] at h
      simp only [List.map_cons, if_neg hp, List.find?_cons, hb]
      exact ih h

theorem find_append_single_self {n : String} {c : Column} :
    ∀ l : List (String × Column),
      l.find? (fun p => p.1 == n) = none →
      (l ++ [(n, c)]).find? (fun p => p.1 == n) = some (n, c) := by
  intro l
  induction l with
  | nil => intro h; simp [List.find?_cons]
  | cons p l ih =>
    intro h
    simp only [List.find?_cons] at h
    cases hpm : (p.1 == n) with
    | true => rw [hpm] at h; simp at h
    | false =>
      rw [hpm] at h
      simp only [List.cons_append, List.find?_cons, hpm]
      exact ih h

theorem getCol_setCol_self (df : DataFrame) (n : String) (c : Column) :
    (setCol df n c).getCol n = some c := by
  unfold setCol
  by_cases h : df.hasCol n = true
  · rw [if_pos h]
    unfold DataFrame.hasCol DataFrame.getCol at h
    unfold DataFrame.getCol
    have hne : df.columns.find? (fun p => p.1 == n) ≠ none := by
      intro hc
      rw [hc] at h
      simp at h
    rw [show (⟨df.columns.map (fun p => if p.1 = n then (n, c) else p)⟩ : DataFrame).columns
          = df.columns.map (fun p => if p.1 = n then (n, c) else p) from rfl]
    rw [find_repl_self df.columns hne]
    rfl
  · rw [if_neg h]
    unfold DataFrame.hasCol DataFrame.getCol at h
    unfold DataFrame.getCol
    have h0 : df.columns.find? (fun p => p.1 == n) = none := by
      cases hf : df.columns.find? (fun p => p.1 == n) with
      | none => rfl
      | some p => rw [hf] at h; simp at h
    rw [show (⟨df.columns ++ [(n, c)]⟩ : DataFrame).columns = df.columns ++ [(n, c)] from rfl]
    rw [find_append_single_self df.columns h0]
    rfl

theorem getCol_setCol_ne (df : DataFrame) (n m : String) (c : Column) (hnm : m ≠ n) :
    (setCol df n c).getCol m = df.getCol m := by
  unfold setCol
  by_cases h : df.hasCol n = true
  · rw [if_pos h]
    unfold DataFrame.getCol
    rw [show (⟨df.columns.map (fun p => if p.1 = n then (n, c) else p)⟩ : DataFrame).columns
          = df.columns.map (fun p => if p.1 = n then (n, c) else p) from rfl]
    rw [find_repl_ne hnm df.columns]
  · rw [if_neg h]
    unfold DataFrame.getCol
    rw [show (⟨df.columns ++ [(n, c)]⟩ : DataFrame).columns = df.columns ++ [(n, c)] from rfl]
    rw [find_append_single_ne hnm df.columns]

theorem columns_ne_nil_of_hasCol {df : DataFrame} {a : String}
    (h : df.hasCol a = true) : df.columns ≠ [] := by
  intro hc
  unfold DataFrame.hasCol DataFrame.getCol at h
  rw [hc] at h
  simp at h

theorem setCol_nrows {df : DataFrame} {n : String} {c : Column}
    (hne : df.columns ≠ []) (hlen : c.values.length = df.nrows) :
    (setCol df n c).nrows = df.nrows := by
  obtain ⟨cols⟩ := df
  cases cols with
  | nil => exact absurd rfl hne
  | cons p l =>
    unfold setCol
    by_cases h : DataFrame.hasCol ⟨p :: l⟩ n = true
    · rw [if_pos h]
      unfold DataFrame.nrows at hlen ⊢
      simp only [List.map_cons]
      by_cases hp : p.1 = n
      · rw [if_pos hp]
        exact hlen
      · rw [if_neg hp]
    · rw [if_neg h]
      unfold DataFrame.nrows
      simp

theorem getCol_wf_length {df : DataFrame} {a : String} {col : Column}
    (hwf : df.wf = true) (h : df.getCol a = some col) :
    col.values.length = df.nrows := by
  unfold DataFrame.getCol at h
  cases hf : df.columns.find? (fun p => p.1 == a) with
  | none => rw [hf] at h; simp at h
  | some q =>
    rw [hf] at h
    simp at h
    have hmem := List.mem_of_find?_eq_some hf
    unfold DataFrame.wf at hwf
    rw [List.all_eq_true] at hwf
    have := hwf q hmem
    rw [← h]
    simpa using this

theorem setCol_wf {df : DataFrame} {n : String} {c : Column}
    (hwf : df.wf = true) (hne : df.columns ≠ []) (hlen : c.values.length = df.nrows) :
    (setCol df n c).wf = true := by
  have hn : (setCol df n c).nrows = df.nrows := setCol_nrows hne hlen
  unfold DataFrame.wf at hwf ⊢
  rw [List.all_eq_true] at hwf ⊢
  rw [hn]
  intro q hq
  unfold setCol at hq
  by_cases h : df.hasCol n = true
  · rw [if_pos h] at hq
    rw [show (⟨df.columns.map (fun p => if p.1 = n then (n, c) else p)⟩ : DataFrame).columns
          = df.columns.map (fun p => if p.1 = n then (n, c) else p) from rfl] at hq
    rw [List.mem_map] at hq
    obtain ⟨p, hp, hq⟩ := hq
    by_cases hpn : p.1 = n
    · rw [if_pos hpn] at hq
      rw [← hq]
      simpa using hlen
    · rw [if_neg hpn] at hq
      rw [← hq]
      exact hwf p hp
  · rw [if_neg h] at hq
    rw [show (⟨df.columns ++ [(n, c)]⟩ : DataFrame).columns = df.columns ++ [(n, c)] from rfl] at hq
    rw [List.mem_append] at hq
    cases hq with
    | inl hq => exact hwf q hq
    | inr hq =>
      simp only [List.mem_singleton] at hq
      rw [hq]
      simpa using hlen

theorem ptp_ok_inv {cm : Cmap} {elements : DataFrame} {attrName cmap colorby : String}
    {decimals height : ℤ} {missing title : String} {wide_layout : Bool} {width : ℤ}
    {fig : Figure} {df' : DataFrame}
    (h : periodic_table_plotly cm elements attrName cmap colorby decimals height missing
      title wide_layout width = (.ok fig, df')) :
    (["x", "y"].any (fun col => !(elements.hasCol col))) = false ∧
    ∃ tiles symbolAnns numberAnns nameAnns attrAnns,
      mapRowsE (colorPrep cm elements attrName cmap colorby missing).1
        (fun row => create_tile row (colorPrep cm elements attrName cmap colorby missing).2
          ⟨45, 2⟩ ⟨45, 2⟩) = .ok tiles ∧
      mapRowsE (colorPrep cm elements attrName cmap colorby missing).1
        (fun row => create_annot row "symbol" 16 ⟨0, 0⟩ ⟨0, 0⟩) = .ok symbolAnns ∧
      mapRowsE (colorPrep cm elements attrName cmap colorby missing).1
        (fun row => create_annot row "atomic_number" 10 ⟨0, 0⟩ ⟨-3, 1⟩) = .ok numberAnns ∧
      mapRowsE (colorPrep cm elements attrName cmap colorby missing).1
        (fun row => create_annot row "name" 7 ⟨0, 0⟩ ⟨2, 1⟩) = .ok nameAnns ∧
      addDisplayColumn (colorPrep cm elements attrName cmap colorby missing).1
        attrName decimals = .ok df' ∧
      mapRowsE df' (fun row => create_annot row "display_attribute" 7 ⟨0, 0⟩ ⟨35, 2⟩)
        = .ok attrAnns ∧
      fig = mkFigure tiles (symbolAnns ++ numberAnns ++ nameAnns ++ attrAnns)
        height width title wide_layout := by
  unfold periodic_table_plotly at h
  by_cases hv : (["x", "y"].any (fun col => !(elements.hasCol col))) = true
  · rw [if_pos hv] at h
    simp at h
  · rw [if_neg hv] at h
    refine ⟨by simpa using hv, ?_⟩
    cases h1 : mapRowsE (colorPrep cm elements attrName cmap colorby missing).1
        (fun row => create_tile row (colorPrep cm elements attrName cmap colorby missing).2
          ⟨45, 2⟩ ⟨45, 2⟩) with
    | error e => rw [h1] at h; simp at h
    | ok tiles =>
      rw [h1] at h
      cases h2 : mapRowsE (colorPrep cm elements attrName cmap colorby missing).1
          (fun row => create_annot row "symbol" 16 ⟨0, 0⟩ ⟨0, 0⟩) with
      | error e => rw [h2] at h; simp at h
      | ok symbolAnns =>
        rw [h2] at h
        cases h3 : mapRowsE (colorPrep cm elements attrName cmap colorby missing).1
            (fun row => create_annot row "atomic_number" 10 ⟨0, 0⟩ ⟨-3, 1⟩) with
        | error e => rw [h3] at h; simp at h
        | ok numberAnns =>
          rw [h3] at h
          cases h4 : mapRowsE (colorPrep cm elements attrName cmap colorby missing).1
              (fun row => create_annot row "name" 7 ⟨0, 0⟩ ⟨2, 1⟩) with
          | error e => rw [h4] at h; simp at h
          | ok nameAnns =>
            rw [h4] at h
            cases h5 : addDisplayColumn (colorPrep cm elements attrName cmap colorby missing).1
                attrName decimals with
            | error e => rw [h5] at h; simp at h
            | ok dfd =>
              rw [h5] at h
              dsimp only at h
              cases h6 : mapRowsE dfd
                  (fun row => create_annot row "display_attribute" 7 ⟨0, 0⟩ ⟨35, 2⟩) with
              | error e => rw [h6] at h; simp at h
              | ok attrAnns =>
                rw [h6] at h
                simp only [Prod.mk.injEq, Except.ok.injEq] at h
                obtain ⟨hfig, hdf⟩ := h
                subst hdf
                exact ⟨tiles, symbolAnns, numberAnns, nameAnns, attrAnns,
                  rfl, rfl, rfl, rfl, rfl, h6, hfig.symm⟩

theorem addDisplayColumn_ok_inv {df : DataFrame} {attrName : String} {decimals : ℤ}
    {df2 : DataFrame} (h : addDisplayColumn df attrName decimals = .ok df2) :
    ∃ c, df.getCol attrName = some c ∧
      df2 = setCol df "display_attribute" (displayColumn c decimals) := by
  unfold addDisplayColumn at h
  cases hg : df.getCol attrName with
  | none => rw [hg] at h; simp at h
  | some c =>
    rw [hg] at h
    simp only [Except.ok.injEq] at h
    exact ⟨c, rfl, h.symm⟩

theorem colorPrep_getCol_ne {cm : Cmap} {elements : DataFrame}
    {attrName cmap colorby missing : String} {m : String} (hm : m ≠ "attribute_color") :
    (colorPrep cm elements attrName cmap colorby missing).1.getCol m
      = elements.getCol m := by
  unfold colorPrep
  by_cases hcb : colorby = "attribute"
  · rw [if_pos hcb]
    exact getCol_setCol_ne elements "attribute_color" m _ hm
  · rw [if_neg hcb]

theorem setCol_columns_ne_nil {df : DataFrame} {n : String} {c : Column}
    (hne : df.columns ≠ []) : (setCol df n c).columns ≠ [] := by
  unfold setCol
  by_cases h : df.hasCol n = true
  · rw [if_pos h]
    intro hcon
    apply hne
    have h2 : (⟨df.columns.map (fun p => if p.1 = n then (n, c) else p)⟩ : DataFrame).columns
        = df.columns.map (fun p => if p.1 = n then (n, c) else p) := rfl
    rw [h2] at hcon
    simpa using hcon
  · rw [if_neg h]
    intro hcon
    have h2 : (⟨df.columns ++ [(n, c)]⟩ : DataFrame).columns = df.columns ++ [(n, c)] := rfl
    rw [h2] at hcon
    simp at hcon

theorem colorPrep_nrows_wf {cm : Cmap} {elements : DataFrame}
    {attrName cmap colorby missing : String}
    (hwf : elements.wf = true) (hne : elements.columns ≠ [])
    (hcm : colorby = "attribute" →
      (cm elements attrName cmap missing).length = elements.nrows) :
    (colorPrep cm elements attrName cmap colorby missing).1.nrows = elements.nrows ∧
    (colorPrep cm elements attrName cmap colorby missing).1.wf = true ∧
    (colorPrep cm elements attrName cmap colorby missing).1.columns ≠ [] := by
  unfold colorPrep
  by_cases hcb : colorby = "attribute"
  · rw [if_pos hcb]
    have hlen : (Column.mk .object (cm elements attrName cmap missing)).values.length
        = elements.nrows := hcm hcb
    exact ⟨setCol_nrows hne hlen, setCol_wf hwf hne hlen, setCol_columns_ne_nil hne⟩
  · rw [if_neg hcb]
    exact ⟨rfl, hwf, hne⟩

/-- C1: a table missing the column x or the column y makes
`periodic_table_plotly` raise the configuration ValueError before touching
anything: no chart is produced and the table is returned exactly as passed,
with no derived column added. -/
theorem C1_missing_xy_raises (cm : Cmap) (elements : DataFrame)
    (attrName cmap colorby : String) (decimals height : ℤ) (missing title : String)
    (wide_layout : Bool) (width : ℤ)
    (h : (elements.hasCol "x" && elements.hasCol "y") = false) :
    periodic_table_plotly cm elements attrName cmap colorby decimals height missing
      title wide_layout width = (.error (.valueError xyErrorMsg), elements) := by
  have hc : (["x", "y"].any (fun col => !(elements.hasCol col))) = true := by
    rw [List.any_cons, List.any_cons, List.any_nil]
    revert h
    cases elements.hasCol "x" <;> cases elements.hasCol "y" <;> simp
  unfold periodic_table_plotly
  rw [if_pos hc]

/-- C1 witness: a concrete table with only a y column. -/
theorem C1_missing_xy_raises_witness :
    periodic_table_plotly cmNone noXDF "atomic_weight" "RdBu_r" "color" 3 800 "#ffffff"
      "Periodic Table" false 1200 = (.error (.valueError xyErrorMsg), noXDF) :=
  C1_missing_xy_raises cmNone noXDF "atomic_weight" "RdBu_r" "color" 3 800 "#ffffff"
    "Periodic Table" false 1200 (by decide)

/-- C6: `create_tile` with the default half extents 0.45 returns the
rectangle [x - 0.45, x + 0.45] times [y - 0.45, y + 0.45] with outline and
fill taken from the named color field and opacity 0.8. -/
theorem C6_create_tile_rect (row : Row) (color : String) (x y : Decimal) (c : Val)
    (hx : rowGet row "x" = some (.num x)) (hy : rowGet row "y" = some (.num y))
    (hc : rowGet row color = some c) :
    create_tile row color ⟨45, 2⟩ ⟨45, 2⟩ =
      some { type := "rect", x0 := .num (x.sub ⟨45, 2⟩), y0 := .num (y.sub ⟨45, 2⟩),
             x1 := .num (x.add ⟨45, 2⟩), y1 := .num (y.add ⟨45, 2⟩),
             lineColor := c, fillcolor := c, opacity := ⟨8, 1⟩ } := by
  unfold create_tile
  rw [hx, hy, hc]
  rfl

/-- C6 witness: at x = 1, y = 1 the tile spans 0.55 to 1.45 on both axes. -/
theorem C6_create_tile_rect_witness :
    create_tile sampleRow "color" ⟨45, 2⟩ ⟨45, 2⟩ =
      some { type := "rect", x0 := .num ⟨55, 2⟩, y0 := .num ⟨55, 2⟩,
             x1 := .num ⟨145, 2⟩, y1 := .num ⟨145, 2⟩,
             lineColor := .str "#1a2b3c", fillcolor := .str "#1a2b3c",
             opacity := ⟨8, 1⟩ } := by
  have h := C6_create_tile_rect sampleRow "color" ⟨1, 0⟩ ⟨1, 0⟩ (Val.str "#1a2b3c")
    (by decide) (by decide) (by decide)
  rw [h]
  decide

/-- C7: `create_annot` places the text at (x + x_offset, y + y_offset),
uses the value of the named field as the literal text, no arrow, centered,
opacity 0.9; the source defaults are size 10 and offsets 0. -/
theorem C7_create_annot_fields (row : Row) (attr : String) (size : ℤ)
    (x_offset y_offset : Decimal) (x y : Decimal) (v : Val)
    (hx : rowGet row "x" = some (.num x)) (hy : rowGet row "y" = some (.num y))
    (hv : rowGet row attr = some v) :
    create_annot row attr size x_offset y_offset =
      some { x := .num (x.add x_offset), y := .num (y.add y_offset), xref := "x",
             yref := "y", text := v, showarrow := false, fontFamily := "Roboto",
             fontSize := size, fontColor := "#333333", align := "center",
             opacity := ⟨9, 1⟩ } := by
  unfold create_annot
  rw [hx, hy, hv]
  rfl

/-- C7 witness: the defaults size 10 and offsets 0 on a concrete row. -/
theorem C7_create_annot_fields_witness :
    create_annot sampleRow "color" 10 ⟨0, 0⟩ ⟨0, 0⟩ =
      some { x := .num ⟨1, 0⟩, y := .num ⟨1, 0⟩, xref := "x", yref := "y",
             text := .str "#1a2b3c", showarrow := false, fontFamily := "Roboto",
             fontSize := 10, fontColor := "#333333", align := "center",
             opacity := ⟨9, 1⟩ } := by
  have h := C7_create_annot_fields sampleRow "color" 10 ⟨0, 0⟩ ⟨0, 0⟩ ⟨1, 0⟩ ⟨1, 0⟩
    (Val.str "#1a2b3c") (by decide) (by decide) (by decide)
  rw [h]
  decide

/-- C4 counterexample: `str.strip` removes a character set from both ends,
not a prefix, so for the identifier en_allen the produced title is
All-apostrophe-s Electronegativity while the claimed prefix-stripping rule
produces Allen-apostrophe-s Electronegativity. -/
theorem C4_strip_charset_cx :
    (plot_scale sampleDF "en_allen").title = "All\x27s Electronegativity" ∧
    specScaleDisplayName "en_allen" ++ "\x27s Electronegativity"
      = "Allen\x27s Electronegativity" ∧
    (plot_scale sampleDF "en_allen").title
      ≠ specScaleDisplayName "en_allen" ++ "\x27s Electronegativity" := by
  exact ⟨by decide, by decide, by decide⟩

/-- C4 amended: the display name strips every leading and trailing character
of the set containing e, n and the underscore, then capitalizes the
underscore separated words and joins them with hyphens; the title appends
the possessive Electronegativity suffix.  For en_pauling this still gives
the claimed title. -/
theorem C4_title_rule (data : DataFrame) (scale : String) :
    (plot_scale data scale).title
      = String.intercalate "-"
          ((splitOnChar '_' (pyStrip scale "en_")).map (fun w => pyCapitalize (String.mk w)))
        ++ "\x27s Electronegativity" ∧
    (plot_scale data "en_pauling").title = "Pauling\x27s Electronegativity" :=
  ⟨rfl, rfl⟩

/-- C2 counterexample: with wide_layout true the y axis tick values are not
unset; they stay 1..7. -/
theorem C2_wide_ytickvals_cx :
    (okFig (periodic_table_plotly cmNone sampleDF "atomic_weight" "RdBu_r" "color" 3 800
        "#ffffff" "Periodic Table" true 1200)).map (fun f => f.yaxis.tickvals)
      = some (some [1, 2, 3, 4, 5, 6, 7]) ∧
    (okFig (periodic_table_plotly cmNone sampleDF "atomic_weight" "RdBu_r" "color" 3 800
        "#ffffff" "Periodic Table" true 1200)).map (fun f => f.yaxis.tickvals)
      ≠ some none := by
  exact ⟨by decide, by decide⟩

/-- C2 amended: on any successful run the x axis has ticks 1..18 and range
[0.5, 18.5] in the narrow layout, unset ticks and range [0.5, 32.5] in the
wide layout; the y axis always has ticks 1..7, with range [10.0, 0.5] in the
narrow layout and [7.5, 0.5] in the wide layout. -/
theorem C2_axis_layout {cm : Cmap} {elements : DataFrame} {attrName cmap colorby : String}
    {decimals height : ℤ} {missing title : String} {wide_layout : Bool} {width : ℤ}
    {fig : Figure} {df' : DataFrame}
    (h : periodic_table_plotly cm elements attrName cmap colorby decimals height missing
      title wide_layout width = (.ok fig, df')) :
    fig.xaxis = { range := if wide_layout then [⟨5, 1⟩, ⟨325, 1⟩] else [⟨5, 1⟩, ⟨185, 1⟩]
                  showgrid := false
                  fixedrange := true
                  side := some "top"
                  tickvals := if wide_layout then none else some (List.range' 1 18)
                  title := none } ∧
    fig.yaxis = { range := if wide_layout then [⟨75, 1⟩, ⟨5, 1⟩] else [⟨10, 0⟩, ⟨5, 1⟩]
                  showgrid := false
                  fixedrange := true
                  side := none
                  tickvals := some (List.range' 1 7)
                  title := some "Period" } := by
  obtain ⟨-, tiles, symbolAnns, numberAnns, nameAnns, attrAnns,
    h1, h2, h3, h4, h5, h6, hfig⟩ := ptp_ok_inv h
  rw [hfig]
  exact ⟨rfl, rfl⟩

/-- C2 witness: the wide layout on a concrete table. -/
theorem C2_axis_layout_witness :
    (match periodic_table_plotly cmNone sampleDF "atomic_weight" "RdBu_r" "color" 3 800
        "#ffffff" "Periodic Table" true 1200 with
     | (.ok fig, _) => fig.xaxis.tickvals = none ∧ fig.yaxis.tickvals = some (List.range' 1 7)
          ∧ fig.xaxis.range = [⟨5, 1⟩, ⟨325, 1⟩] ∧ fig.yaxis.range = [⟨75, 1⟩, ⟨5, 1⟩]
     | (.error _, _) => False) := by
  cases hr : periodic_table_plotly cmNone sampleDF "atomic_weight" "RdBu_r" "color" 3 800
      "#ffffff" "Periodic Table" true 1200 with
  | mk r d =>
    cases r with
    | error e =>
      have hok : isOkRun (periodic_table_plotly cmNone sampleDF "atomic_weight" "RdBu_r"
          "color" 3 800 "#ffffff" "Periodic Table" true 1200) = true := by decide
      rw [hr] at hok
      simp [isOkRun] at hok
    | ok fig =>
      obtain ⟨hx, hy⟩ := C2_axis_layout hr
      show fig.xaxis.tickvals = none ∧ fig.yaxis.tickvals = some (List.range' 1 7)
          ∧ fig.xaxis.range = [⟨5, 1⟩, ⟨325, 1⟩] ∧ fig.yaxis.range = [⟨75, 1⟩, ⟨5, 1⟩]
      rw [hx, hy]
      exact ⟨rfl, rfl, rfl, rfl⟩

/-- C3 counterexample: with the attribute column of object dtype holding the
float 7.1234 next to the string s-block and decimals equal 2, the derived
display value of the float stays 7.1234 instead of the claimed 7.12. -/
theorem C3_dtype_gate_cx :
    (okDf (periodic_table_plotly cmNone mixDF "block" "RdBu_r" "color" 2 800 "#ffffff"
        "Periodic Table" false 1200)).map (fun d => d.getCol "display_attribute")
      = some (some ⟨.object, [Val.num ⟨71234, 4⟩, Val.str "s-block"]⟩) ∧
    Val.roundVal 2 (Val.num ⟨71234, 4⟩) = Val.num ⟨712, 2⟩ ∧
    Val.num ⟨71234, 4⟩ ≠ Val.num ⟨712, 2⟩ := by
  exact ⟨by decide, by decide, by decide⟩

/-- C3 amended: the display column is derived from the attribute column as a
whole: a float dtype column is rounded value-wise to the configured
decimals, any other column (even one containing numbers) is copied
unchanged. -/
theorem C3_display_rounding {cm : Cmap} {elements : DataFrame}
    {attrName cmap colorby : String} {decimals height : ℤ} {missing title : String}
    {wide_layout : Bool} {width : ℤ} {fig : Figure} {df' : DataFrame} {c : Column}
    (h : periodic_table_plotly cm elements attrName cmap colorby decimals height missing
      title wide_layout width = (.ok fig, df'))
    (hcb : colorby ≠ "attribute")
    (hc : elements.getCol attrName = some c) :
    df'.getCol "display_attribute"
      = some (if c.dtype = .float64
              then ⟨.float64, c.values.map (Val.roundVal decimals)⟩
              else c) := by
  obtain ⟨-, tiles, symbolAnns, numberAnns, nameAnns, attrAnns,
    h1, h2, h3, h4, h5, h6, hfig⟩ := ptp_ok_inv h
  obtain ⟨c2, hc2, hdf⟩ := addDisplayColumn_ok_inv h5
  rw [colorPrep] at hc2 hdf
  rw [if_neg hcb] at hc2 hdf
  rw [hc] at hc2
  have hcc : c2 = c := by
    injection hc2 with hcc
    exact hcc.symm
  subst hcc
  rw [hdf, getCol_setCol_self]
  rfl

/-- C3 witness: a float dtype attribute value 7.1234 with decimals 2 is
displayed as 7.12, an object dtype value passes through (see the
counterexample for the object dtype half; here the float dtype half). -/
theorem C3_display_rounding_witness :
    (match periodic_table_plotly cmNone sampleDF "atomic_weight" "RdBu_r" "color" 2 800
        "#ffffff" "Periodic Table" false 1200 with
     | (.ok _, df') => df'.getCol "display_attribute"
          = some ⟨.float64, [Val.num ⟨712, 2⟩]⟩
     | (.error _, _) => False) := by
  cases hr : periodic_table_plotly cmNone sampleDF "atomic_weight" "RdBu_r" "color" 2 800
      "#ffffff" "Periodic Table" false 1200 with
  | mk r d =>
    cases r with
    | error e =>
      have hok : isOkRun (periodic_table_plotly cmNone sampleDF "atomic_weight" "RdBu_r"
          "color" 2 800 "#ffffff" "Periodic Table" false 1200) = true := by decide
      rw [hr] at hok
      simp [isOkRun] at hok
    | ok fig =>
      have h := C3_display_rounding hr (by decide)
        (show sampleDF.getCol "atomic_weight" = some ⟨.float64, [Val.num ⟨71234, 4⟩]⟩
         by decide)
      show d.getCol "display_attribute" = some ⟨.float64, [Val.num ⟨712, 2⟩]⟩
      rw [h]
      decide

/-- C8: a successful run only writes the derived columns: every column whose
name is neither display_attribute nor attribute_color is returned exactly as
passed, the display column is always present afterwards, and the color
column is present when coloring by attribute; the populated chart is
returned. -/
theorem C8_frame {cm : Cmap} {elements : DataFrame} {attrName cmap colorby : String}
    {decimals height : ℤ} {missing title : String} {wide_layout : Bool} {width : ℤ}
    {fig : Figure} {df' : DataFrame}
    (h : periodic_table_plotly cm elements attrName cmap colorby decimals height missing
      title wide_layout width = (.ok fig, df')) :
    (∀ name, name ≠ "display_attribute" → name ≠ "attribute_color" →
      df'.getCol name = elements.getCol name) ∧
    df'.hasCol "display_attribute" = true ∧
    (colorby = "attribute" → df'.hasCol "attribute_color" = true) := by
  obtain ⟨-, tiles, symbolAnns, numberAnns, nameAnns, attrAnns,
    h1, h2, h3, h4, h5, h6, hfig⟩ := ptp_ok_inv h
  obtain ⟨c, hc, hdf⟩ := addDisplayColumn_ok_inv h5
  refine ⟨?_, ?_, ?_⟩
  · intro name hn1 hn2
    rw [hdf, getCol_setCol_ne _ _ _ _ hn1]
    exact colorPrep_getCol_ne hn2
  · rw [DataFrame.hasCol, hdf, getCol_setCol_self]
    rfl
  · intro hcb
    rw [DataFrame.hasCol, hdf,
      getCol_setCol_ne _ _ _ _ (show "attribute_color" ≠ "display_attribute" by decide)]
    rw [colorPrep, if_pos hcb]
    rw [getCol_setCol_self]
    rfl

/-- C8 witness: on a concrete run the symbol column is untouched and the
display column exists. -/
theorem C8_frame_witness :
    (match periodic_table_plotly cmNone sampleDF "atomic_weight" "RdBu_r" "color" 3 800
        "#ffffff" "Periodic Table" false 1200 with
     | (.ok _, df') => df'.getCol "symbol" = sampleDF.getCol "symbol"
          ∧ df'.hasCol "display_attribute" = true
     | (.error _, _) => False) := by
  cases hr : periodic_table_plotly cmNone sampleDF "atomic_weight" "RdBu_r" "color" 3 800
      "#ffffff" "Periodic Table" false 1200 with
  | mk r d =>
    cases r with
    | error e =>
      have hok : isOkRun (periodic_table_plotly cmNone sampleDF "atomic_weight" "RdBu_r"
          "color" 3 800 "#ffffff" "Periodic Table" false 1200) = true := by decide
      rw [hr] at hok
      simp [isOkRun] at hok
    | ok fig =>
      obtain ⟨hframe, hdisp, -⟩ := C8_frame hr
      exact ⟨hframe "symbol" (by decide) (by decide), hdisp⟩

/-- C9: the derived columns are written under the fixed names
display_attribute (always) and attribute_color (when coloring by attribute),
and their final contents are the derived values, regardless of what a
pre-existing column of the same name held: a caller's column is silently
overwritten. -/
theorem C9_fixed_names_overwrite {cm : Cmap} {elements : DataFrame}
    {attrName cmap colorby : String} {decimals height : ℤ} {missing title : String}
    {wide_layout : Bool} {width : ℤ} {fig : Figure} {df' : DataFrame} {c : Column}
    (h : periodic_table_plotly cm elements attrName cmap colorby decimals height missing
      title wide_layout width = (.ok fig, df'))
    (hattr : attrName ≠ "attribute_color")
    (hc : elements.getCol attrName = some c) :
    df'.getCol "display_attribute" = some (displayColumn c decimals) ∧
    (colorby = "attribute" →
      df'.getCol "attribute_color" = some ⟨.object, cm elements attrName cmap missing⟩) := by
  obtain ⟨-, tiles, symbolAnns, numberAnns, nameAnns, attrAnns,
    h1, h2, h3, h4, h5, h6, hfig⟩ := ptp_ok_inv h
  obtain ⟨c2, hc2, hdf⟩ := addDisplayColumn_ok_inv h5
  rw [colorPrep_getCol_ne hattr, hc] at hc2
  have hcc : c2 = c := by
    injection hc2 with hcc
    exact hcc.symm
  subst hcc
  constructor
  · rw [hdf, getCol_setCol_self]
  · intro hcb
    rw [hdf,
      getCol_setCol_ne _ _ _ _ (show "attribute_color" ≠ "display_attribute" by decide)]
    rw [colorPrep, if_pos hcb]
    rw [getCol_setCol_self]

/-- C9 witness: a table that already holds junk columns named
display_attribute and attribute_color has both silently overwritten with the
derived values. -/
theorem C9_fixed_names_overwrite_witness :
    ovrDF.getCol "display_attribute" = some ⟨.object, [Val.str "junk"]⟩ ∧
    ovrDF.getCol "attribute_color" = some ⟨.object, [Val.str "junk"]⟩ ∧
    (match periodic_table_plotly cmGray ovrDF "atomic_weight" "RdBu_r" "attribute" 2 800
        "#ffffff" "Periodic Table" false 1200 with
     | (.ok _, df') => df'.getCol "display_attribute"
            = some ⟨.float64, [Val.num ⟨712, 2⟩]⟩
          ∧ df'.getCol "attribute_color" = some ⟨.object, [Val.str "#aabbcc"]⟩
     | (.error _, _) => False) := by
  refine ⟨by decide, by decide, ?_⟩
  cases hr : periodic_table_plotly cmGray ovrDF "atomic_weight" "RdBu_r" "attribute" 2 800
      "#ffffff" "Periodic Table" false 1200 with
  | mk r d =>
    cases r with
    | error e =>
      have hok : isOkRun (periodic_table_plotly cmGray ovrDF "atomic_weight" "RdBu_r"
          "attribute" 2 800 "#ffffff" "Periodic Table" false 1200) = true := by decide
      rw [hr] at hok
      simp [isOkRun] at hok
    | ok fig =>
      obtain ⟨hdisp, hcol⟩ := C9_fixed_names_overwrite hr (by decide)
        (show ovrDF.getCol "atomic_weight" = some ⟨.float64, [Val.num ⟨71234, 4⟩]⟩
         by decide)
      show d.getCol "display_attribute" = some ⟨.float64, [Val.num ⟨712, 2⟩]⟩
          ∧ d.getCol "attribute_color" = some ⟨.object, [Val.str "#aabbcc"]⟩
      rw [hdisp, hcol rfl]
      exact ⟨by decide, by decide⟩

/-- C5: on a successful run over a well-formed table of N rows (and a color
collaborator that returns one color per row when it is used), the chart has
exactly N tile shapes, and its annotations are the four overlay passes
appended in source order: symbol (size 16, no offset), atomic number
(size 10, y offset -0.3), name (size 7, y offset 0.2) and the derived
display value (size 7, y offset 0.35), each pass a row-order traversal of
length N, 4 N annotations in total. -/
theorem C5_counts_and_overlays {cm : Cmap} {elements : DataFrame}
    {attrName cmap colorby : String} {decimals height : ℤ} {missing title : String}
    {wide_layout : Bool} {width : ℤ} {fig : Figure} {df' : DataFrame}
    (h : periodic_table_plotly cm elements attrName cmap colorby decimals height missing
      title wide_layout width = (.ok fig, df'))
    (hwf : elements.wf = true)
    (hcm : colorby = "attribute" →
      (cm elements attrName cmap missing).length = elements.nrows) :
    fig.shapes.length = elements.nrows ∧
    fig.annotations.length = 4 * elements.nrows ∧
    ∃ symbolAnns numberAnns nameAnns attrAnns,
      fig.annotations = symbolAnns ++ numberAnns ++ nameAnns ++ attrAnns ∧
      mapRowsE (colorPrep cm elements attrName cmap colorby missing).1
        (fun row => create_tile row (colorPrep cm elements attrName cmap colorby missing).2
          ⟨45, 2⟩ ⟨45, 2⟩) = .ok fig.shapes ∧
      mapRowsE (colorPrep cm elements attrName cmap colorby missing).1
        (fun row => create_annot row "symbol" 16 ⟨0, 0⟩ ⟨0, 0⟩) = .ok symbolAnns ∧
      mapRowsE (colorPrep cm elements attrName cmap colorby missing).1
        (fun row => create_annot row "atomic_number" 10 ⟨0, 0⟩ ⟨-3, 1⟩) = .ok numberAnns ∧
      mapRowsE (colorPrep cm elements attrName cmap colorby missing).1
        (fun row => create_annot row "name" 7 ⟨0, 0⟩ ⟨2, 1⟩) = .ok nameAnns ∧
      mapRowsE df' (fun row => create_annot row "display_attribute" 7 ⟨0, 0⟩ ⟨35, 2⟩)
        = .ok attrAnns ∧
      symbolAnns.length = elements.nrows ∧ numberAnns.length = elements.nrows ∧
      nameAnns.length = elements.nrows ∧ attrAnns.length = elements.nrows := by
  obtain ⟨hval, tiles, symbolAnns, numberAnns, nameAnns, attrAnns,
    h1, h2, h3, h4, h5, h6, hfig⟩ := ptp_ok_inv h
  have hx : elements.hasCol "x" = true := by
    rw [List.any_cons, List.any_cons, List.any_nil] at hval
    cases hbx : elements.hasCol "x"
    · rw [hbx] at hval; simp at hval
    · rfl
  have hne := columns_ne_nil_of_hasCol hx
  obtain ⟨hnr, hwf1, hne1⟩ := colorPrep_nrows_wf hwf hne hcm
  obtain ⟨c, hc, hdf⟩ := addDisplayColumn_ok_inv h5
  have hclen : c.values.length
      = (colorPrep cm elements attrName cmap colorby missing).1.nrows :=
    getCol_wf_length hwf1 hc
  have hdlen : (displayColumn c decimals).values.length
      = (colorPrep cm elements attrName cmap colorby missing).1.nrows := by
    unfold displayColumn
    by_cases hdt : c.dtype = .float64
    · rw [if_pos hdt]
      simpa using hclen
    · rw [if_neg hdt]
      exact hclen
  have hdfn : df'.nrows = elements.nrows := by
    rw [hdf, setCol_nrows hne1 hdlen]
    exact hnr
  have lt1 := mapRowsE_ok_length h1
  have lt2 := mapRowsE_ok_length h2
  have lt3 := mapRowsE_ok_length h3
  have lt4 := mapRowsE_ok_length h4
  have lt6 := mapRowsE_ok_length h6
  rw [hnr] at lt1 lt2 lt3 lt4
  rw [hdfn] at lt6
  subst hfig
  refine ⟨lt1, ?_, symbolAnns, numberAnns, nameAnns, attrAnns, rfl, h1, h2, h3, h4, h6,
    lt2, lt3, lt4, lt6⟩
  show (symbolAnns ++ numberAnns ++ nameAnns ++ attrAnns).length = 4 * elements.nrows
  simp only [List.length_append, lt2, lt3, lt4, lt6]
  omega

/-- C5 witness: one concrete row gives one tile and four annotations. -/
theorem C5_counts_and_overlays_witness :
    (match periodic_table_plotly cmNone sampleDF "atomic_weight" "RdBu_r" "color" 3 800
        "#ffffff" "Periodic Table" false 1200 with
     | (.ok fig, _) => fig.shapes.length = 1 ∧ fig.annotations.length = 4
     | (.error _, _) => False) := by
  cases hr : periodic_table_plotly cmNone sampleDF "atomic_weight" "RdBu_r" "color" 3 800
      "#ffffff" "Periodic Table" false 1200 with
  | mk r d =>
    cases r with
    | error e =>
      have hok : isOkRun (periodic_table_plotly cmNone sampleDF "atomic_weight" "RdBu_r"
          "color" 3 800 "#ffffff" "Periodic Table" false 1200) = true := by decide
      rw [hr] at hok
      simp [isOkRun] at hok
    | ok fig =>
      obtain ⟨hsh, hann, -⟩ := C5_counts_and_overlays hr (by decide)
        (fun hcb => absurd hcb (by decide))
      show fig.shapes.length = 1 ∧ fig.annotations.length = 4
      rw [hsh, hann]
      exact ⟨rfl, rfl⟩

/-- C10: the coordinate validation checks only the presence of the columns
x and y, not their per-row contents: whenever both columns exist the
configuration ValueError is never raised, and on a concrete table whose x
column holds NaN the run succeeds and builds the tile with NaN coordinates
(x0 and x1 are NaN, the row color and y extents are still applied). -/
theorem C10_validation_only_columns :
    (∀ (cm : Cmap) (elements : DataFrame) (attrName cmap colorby : String)
        (decimals height : ℤ) (missing title : String) (wide_layout : Bool) (width : ℤ)
        (m : String), elements.hasCol "x" = true → elements.hasCol "y" = true →
        (periodic_table_plotly cm elements attrName cmap colorby decimals height missing
          title wide_layout width).1 ≠ .error (.valueError m)) ∧
    (okFig (periodic_table_plotly cmNone nanDF "atomic_weight" "RdBu_r" "color" 3 800
        "#ffffff" "Periodic Table" false 1200)).map (fun f => f.shapes)
      = some [{ type := "rect", x0 := Val.nan, y0 := Val.num ⟨55, 2⟩, x1 := Val.nan,
                y1 := Val.num ⟨145, 2⟩, lineColor := Val.str "#ffffff",
                fillcolor := Val.str "#ffffff", opacity := ⟨8, 1⟩ }] := by
  constructor
  · intro cm elements attrName cmap colorby decimals height missing title wide_layout
      width m hx hy
    unfold periodic_table_plotly
    have hcond : ¬ ((["x", "y"].any (fun col => !(elements.hasCol col))) = true) := by
      rw [List.any_cons, List.any_cons, List.any_nil, hx, hy]
      simp
    rw [if_neg hcond]
    repeat' split
    all_goals intro hcon
    all_goals try exact Except.noConfusion hcon
    all_goals rename_i e heq
    all_goals first
      | (rw [mapRowsE_error_eq heq] at hcon
         exact PtErr.noConfusion (Except.error.inj hcon))
      | (rw [addDisplayColumn_error_eq heq] at hcon
         exact PtErr.noConfusion (Except.error.inj hcon))
  · decide

/-- C10 witness: the NaN table with both coordinate columns raises no
configuration error. -/
theorem C10_validation_only_columns_witness :
    (periodic_table_plotly cmNone nanDF "atomic_weight" "RdBu_r" "color" 3 800 "#ffffff"
      "Periodic Table" false 1200).1 ≠ .error (.valueError xyErrorMsg) :=
  C10_validation_only_columns.1 cmNone nanDF "atomic_weight" "RdBu_r" "color" 3 800
    "#ffffff" "Periodic Table" false 1200 xyErrorMsg (by decide) (by decide)
